import Mathlib

/-!
Verification of the native-os agent scripts: the response-to-files
extractor, the path-safety persistence guard and the command-safety gate,
embedded from `src/agents/*.py`.  Python string primitives are modelled
on `List Char` so that every definition is executable and kernel-evaluable.
-/

/-- Python `str` whitespace set used by `str.strip()` / `str.split()`
(ASCII part: space, tab, newline, carriage return, vertical tab, form feed). -/
def pyWhitespace (c : Char) : Bool :=
  c == ' ' || c == '\t' || c == '\n' || c == '\r' || c == Char.ofNat 11 || c == Char.ofNat 12

/-- Strip Python whitespace from both ends of a character list. -/
def stripData (l : List Char) : List Char :=
  ((l.dropWhile pyWhitespace).reverse.dropWhile pyWhitespace).reverse

/-- Python `s.strip()`. -/
def pyStrip (s : String) : String := String.mk (stripData s.data)

/-- Python `s.startswith(pre)`. -/
def pyStartsWith (s pre : String) : Bool := pre.data.isPrefixOf s.data

/-- Python `s.endswith(suf)`. -/
def pyEndsWith (s suf : String) : Bool := suf.data.isSuffixOf s.data

/-- Substring occurrence over character lists. -/
def isInfixData (sub : List Char) : List Char → Bool
  | [] => sub.isEmpty
  | c :: cs => sub.isPrefixOf (c :: cs) || isInfixData sub cs

/-- Python `sub in s` (substring containment). -/
def containsSub (s sub : String) : Bool := isInfixData sub.data s.data

/-- Split a character list on a separator character, keeping empty parts,
matching Python `s.split(sep)` for a one-character separator. -/
def splitCharData (sep : Char) : List Char → List (List Char)
  | [] => [[]]
  | c :: cs =>
    if c = sep then [] :: splitCharData sep cs
    else
      match splitCharData sep cs with
      | [] => [[c]]
      | h :: t => (c :: h) :: t

/-- Python `s.split(sep)` for a one-character separator. -/
def pySplitChar (s : String) (sep : Char) : List String :=
  (splitCharData sep s.data).map String.mk

/-- Python `response.split("\n")`. -/
def pySplitLines (s : String) : List String := pySplitChar s '\n'

/-- Everything after the first occurrence of `sep`; empty when `sep` is absent.
Models Python `s.split(sep, 1)[1]` at the call sites, which are all guarded so
that `sep` is present. -/
def afterCharData (sep : Char) : List Char → List Char
  | [] => []
  | c :: cs => if c = sep then cs else afterCharData sep cs

/-- Python `s.split(sep, 1)[1]` for a one-character separator (guarded call sites). -/
def pyAfterChar (s : String) (sep : Char) : String := String.mk (afterCharData sep s.data)

/-- Helper for Python `s.split()`: accumulate the current word (reversed) while
scanning, emitting words between whitespace runs. -/
def wsSplitAux : List Char → List Char → List String
  | cur, [] => if cur = [] then [] else [String.mk cur.reverse]
  | cur, c :: cs =>
    if pyWhitespace c then
      if cur = [] then wsSplitAux [] cs
      else String.mk cur.reverse :: wsSplitAux [] cs
    else wsSplitAux (c :: cur) cs

/-- Python `s.split()` with no argument: split on whitespace runs, no empties. -/
def pySplitWs (s : String) : List String := wsSplitAux [] s.data

/-- Python `s.lower()` (ASCII behaviour, which covers all table keys used). -/
def pyLower (s : String) : String := String.mk (s.data.map Char.toLower)

/-- Python slicing `s[n:]` by characters. -/
def pyDropChars (n : Nat) (s : String) : String := String.mk (s.data.drop n)

/-- Python `"\n".join(lines)`. -/
def pyJoinLines (l : List String) : String := String.intercalate "\n" l

/-- Python `dict.get(k, d)` over an association-list rendering of the
literal dict (keys are distinct in every table used). -/
def lookupD (table : List (String × String)) (k d : String) : String :=
  match table.find? (fun p => p.fst == k) with
  | some p => p.snd
  | none => d

/-! posixpath functions used by the save routines. -/

/-- `os.path.normpath` on POSIX: purely syntactic resolution of `.` and `..`
segments, preserving one or two leading slashes. -/
def normpath (path : String) : String :=
  if path = "" then "." else
  let initialSlashes : Nat :=
    if pyStartsWith path "//" && !pyStartsWith path "///" then 2
    else if pyStartsWith path "/" then 1 else 0
  let comps := pySplitChar path '/'
  let newComps := comps.foldl (fun acc comp =>
    if comp == "" || comp == "." then acc
    else if comp != ".." || (initialSlashes == 0 && acc.isEmpty) ||
            (!acc.isEmpty && acc.getLast? == some "..") then acc ++ [comp]
    else if !acc.isEmpty then acc.dropLast
    else acc) ([] : List String)
  let joined := String.intercalate "/" newComps
  let prefixed := String.mk (List.replicate initialSlashes '/') ++ joined
  if prefixed = "" then "." else prefixed

/-- `os.path.join(a, b)` on POSIX for two arguments. -/
def pjoin (a b : String) : String :=
  if pyStartsWith b "/" then b
  else if a == "" || pyEndsWith a "/" then a ++ b
  else a ++ "/" ++ b

/-- `os.path.dirname(p)` on POSIX. -/
def dirnameData (l : List Char) : List Char :=
  let head := (l.reverse.dropWhile (fun c => !(c == '/'))).reverse
  if head.isEmpty || head.all (fun c => c == '/') then head
  else (head.reverse.dropWhile (fun c => c == '/')).reverse

/-- `os.path.dirname(p)` on POSIX. -/
def dirname (p : String) : String := String.mk (dirnameData p.data)

/-- `os.path.abspath(p)` on POSIX, with the process working directory passed
explicitly. -/
def abspath (cwd p : String) : String :=
  if pyStartsWith p "/" then normpath p else normpath (pjoin cwd p)

example : normpath "../../etc/passwd" = "../../etc/passwd" := by decide
example : normpath "/etc/passwd" = "/etc/passwd" := by decide
example : normpath "sub/dir/file.txt" = "sub/dir/file.txt" := by decide
example : normpath "a/./b/../c" = "a/c" := by decide
example : normpath "notes..md" = "notes..md" := by decide
example : pjoin "output" "/etc/passwd" = "/etc/passwd" := by decide
example : pjoin "output" "../../etc/passwd" = "output/../../etc/passwd" := by decide
example : dirname "out/sub/dir/file.txt" = "out/sub/dir" := by decide
example : dirname "file.txt" = "" := by decide
example : abspath "/cwd" "out/a.txt" = "/cwd/out/a.txt" := by decide
example : pySplitWs (pyStrip "  docker  build . ") = ["docker", "build", "."] := by decide
example : pySplitLines "a\nb\n" = ["a", "b", ""] := by decide

/-! # Response Extractor

Embedded from `extract_files` in the agent scripts.  Two variants occur:

* the docker style (`docker-agent.py`, `ansible-agent.py`, `k8s-agent.py`,
  `terraform-agent.py`, verbatim-identical in all four): fence-marker lines are
  skipped and any other line is accumulated while a file is open;
* the marked-fence style (`code-agent.py`, `infra-agent.py`, identical up to
  the extension table and default basename): content is accumulated only
  inside a fence, a fence-close flushes the artifact, a fence-open without a
  current file derives a default filename from the language tag.
-/

/-- One generated file: `{"filename": ..., "content": ...}`. -/
structure Artifact where
  filename : String
  content : String
deriving DecidableEq

/-- The loop state of `extract_files`.  Python's `current_file` starts as
`None` and is tested only for truthiness, under which `None` and `""` are
indistinguishable, so it is modelled as a `String` with `""` for unset. -/
structure DState where
  files : List Artifact
  current_file : String
  current_content : List String
  in_code_block : Bool
deriving DecidableEq

/-- The triple-backtick fence delimiter. -/
def tripleTick : String := "```"

/-- The file-marker test `line.startswith("## file:") or line.startswith("## File:")`. -/
def isFileMarker (line : String) : Bool :=
  pyStartsWith line "## file:" || pyStartsWith line "## File:"

/-- The filename taken from a marker line: `line.split(":", 1)[1].strip()`. -/
def markerPath (line : String) : String := pyStrip (pyAfterChar line ':')

/-- Initial loop state (`files = []`, `current_file = None`,
`current_content = []`, `in_code_block = False`). -/
def initState : DState := ⟨[], "", [], false⟩

/-- One loop iteration of the docker-style `extract_files`
(`docker-agent.py` lines 465-490, identical in ansible/k8s/terraform). -/
def dockerStyleStep (s : DState) (line : String) : DState :=
  if isFileMarker line = true then
    if s.current_file ≠ "" then
      { files := s.files ++ [⟨s.current_file, pyJoinLines s.current_content⟩],
        current_file := markerPath line, current_content := [], in_code_block := false }
    else
      { s with current_file := markerPath line, in_code_block := false }
  else if pyStartsWith (pyStrip line) tripleTick = true ∧ s.in_code_block = false then
    { s with in_code_block := true }
  else if pyStrip line = tripleTick ∧ s.in_code_block = true then
    { s with in_code_block := false }
  else if s.current_file ≠ "" then
    { s with current_content := s.current_content ++ [line] }
  else s

/-- The final flush of the docker-style `extract_files`: the last file is
emitted when `current_file` is truthy. -/
def dockerStyleFinish (s : DState) : List Artifact :=
  if s.current_file ≠ "" then
    s.files ++ [⟨s.current_file, pyJoinLines s.current_content⟩]
  else s.files

/-- Docker-style `extract_files` on an already-split line list. -/
def dockerStyleExtractLines (lines : List String) : List Artifact :=
  dockerStyleFinish (lines.foldl dockerStyleStep initState)

/-- Docker-style `extract_files` on the raw response string. -/
def dockerStyleExtract (response : String) : List Artifact :=
  dockerStyleExtractLines (pySplitLines response)

/-- `DockerAgent.extract_files` (`docker-agent.py` lines 455-499). -/
def DockerAgent.extract_files : String → List Artifact := dockerStyleExtract

/-- `AnsibleAgent.extract_files` (`ansible-agent.py` lines 353-397, verbatim
the same loop as the docker agent). -/
def AnsibleAgent.extract_files : String → List Artifact := dockerStyleExtract

/-- `K8sAgent.extract_files` (`k8s-agent.py` lines 380-424). -/
def K8sAgent.extract_files : String → List Artifact := dockerStyleExtract

/-- `TerraformAgent.extract_files` (`terraform-agent.py` lines 344-388). -/
def TerraformAgent.extract_files : String → List Artifact := dockerStyleExtract

/-- One loop iteration of the marked-fence style `extract_files`
(`code-agent.py` lines 191-238 and `infra-agent.py` lines 352-399),
parameterized by the extension table and the default basename. -/
def markedFenceStep (table : List (String × String)) (baseName : String)
    (s : DState) (line : String) : DState :=
  if isFileMarker line = true then
    if s.current_file ≠ "" then
      { files := s.files ++ [⟨s.current_file, pyJoinLines s.current_content⟩],
        current_file := markerPath line, current_content := [], in_code_block := false }
    else
      { s with current_file := markerPath line, in_code_block := false }
  else if pyStartsWith (pyStrip line) tripleTick = true then
    if s.in_code_block = true then
      if s.current_file ≠ "" then
        { files := s.files ++ [⟨s.current_file, pyJoinLines s.current_content⟩],
          current_file := "", current_content := [], in_code_block := false }
      else
        { s with in_code_block := false }
    else
      if s.current_file = "" ∧ pyStrip (pyDropChars 3 (pyStrip line)) ≠ "" then
        { s with in_code_block := true,
                 current_file := baseName ++ "." ++
                   lookupD table (pyLower (pyStrip (pyDropChars 3 (pyStrip line)))) "txt" }
      else
        { s with in_code_block := true }
  else if s.in_code_block = true ∧ s.current_file ≠ "" then
    { s with current_content := s.current_content ++ [line] }
  else s

/-- The final flush of the marked-fence style: the last file is emitted only
when both `current_file` and `current_content` are truthy. -/
def markedFenceFinish (s : DState) : List Artifact :=
  if s.current_file ≠ "" ∧ s.current_content ≠ [] then
    s.files ++ [⟨s.current_file, pyJoinLines s.current_content⟩]
  else s.files

/-- Marked-fence style `extract_files` on an already-split line list. -/
def markedFenceExtractLines (table : List (String × String)) (baseName : String)
    (lines : List String) : List Artifact :=
  markedFenceFinish (lines.foldl (markedFenceStep table baseName) initState)

/-- The extension table of `code-agent.py` (lines 226-232). -/
def codeExtensions : List (String × String) :=
  [("python", "py"), ("py", "py"), ("javascript", "js"), ("js", "js"),
   ("html", "html"), ("css", "css"), ("java", "java"), ("c", "c"),
   ("cpp", "cpp"), ("go", "go"), ("rust", "rs"), ("typescript", "ts")]

/-- The extension table of `infra-agent.py` (lines 387-393). -/
def infraExtensions : List (String × String) :=
  [("bash", "sh"), ("sh", "sh"), ("yaml", "yaml"), ("yml", "yml"),
   ("terraform", "tf"), ("tf", "tf"), ("hcl", "tf"),
   ("dockerfile", "Dockerfile"), ("docker", "Dockerfile"),
   ("json", "json"), ("python", "py"), ("py", "py")]

/-- `CodeAgent.extract_files` (`code-agent.py` lines 181-247). -/
def CodeAgent.extract_files (response : String) : List Artifact :=
  markedFenceExtractLines codeExtensions "generated_code" (pySplitLines response)

/-- The marker/fence loop of `InfraAgent.extract_files`, before the README
fallback (`infra-agent.py` lines 342-407). -/
def infraExtractCore (response : String) : List Artifact :=
  markedFenceExtractLines infraExtensions "infra" (pySplitLines response)

/-- `InfraAgent.extract_files` (`infra-agent.py` lines 342-415), including the
README fallback the function itself performs when no files were found. -/
def InfraAgent.extract_files (response : String) : List Artifact :=
  let files := infraExtractCore response
  if files = [] then [⟨"README.md", response⟩] else files

/-- The caller-level fallback of `CodeAgent.run` (`code-agent.py` lines
284-291): extract, then store the raw response when nothing was extracted. -/
def CodeAgent.run_files (response : String) : List Artifact :=
  let files := CodeAgent.extract_files response
  if files = [] then [⟨"generated_code.txt", response⟩] else files

example :
    DockerAgent.extract_files "## file: a.txt\nhello\n## file: b.txt\nworld" =
      [⟨"a.txt", "hello"⟩, ⟨"b.txt", "world"⟩] := by decide
example :
    CodeAgent.extract_files "```python\nprint(1)\n```" =
      [⟨"generated_code.py", "print(1)"⟩] := by decide
example : AnsibleAgent.extract_files "```python\nprint(1)\n```" = [] := by decide
example :
    InfraAgent.extract_files "## file: a.txt\nhello" =
      [⟨"README.md", "## file: a.txt\nhello"⟩] := by decide

/-! # Command Safety Gate

Embedded from `check_command_safety` in the agent scripts.  The docker,
ansible, k8s and terraform agents share the same denylist and differ only in
the allow-list; the infra agent has a longer denylist and no allow-list. -/

/-- The `dangerous_patterns` list shared by the docker, ansible, k8s and
terraform agents (e.g. `docker-agent.py` lines 535-540). -/
def dangerousPatterns : List String :=
  ["rm -rf", "rmdir", "mkfs", "> /dev", "dd if",
   ":()\x7b:|:&\x7d;:", "wget", "curl -o", "sudo", "su"]

/-- The denylist-then-allowlist gate shared by the docker, ansible, k8s and
terraform agents, parameterized by the agent's `allowed_commands`. -/
def gateCheck (allowed : List String) (command : String) : Bool × String :=
  match dangerousPatterns.find? (fun p => containsSub command p) with
  | some p => (false, "Command contains potentially dangerous pattern: " ++ p)
  | none =>
    match pySplitWs (pyStrip command) with
    | [] => (false, "Empty command")
    | first :: _ =>
      if allowed.contains first then (true, "Command appears safe")
      else (false, "Only the following commands are allowed: " ++
                     String.intercalate ", " allowed)

/-- `DockerAgent.check_command_safety` (`docker-agent.py` lines 532-557). -/
def DockerAgent.check_command_safety (command : String) : Bool × String :=
  gateCheck ["docker", "docker-compose"] command

/-- `AnsibleAgent.check_command_safety` (`ansible-agent.py` lines 430-455). -/
def AnsibleAgent.check_command_safety (command : String) : Bool × String :=
  gateCheck ["ansible-playbook", "ansible"] command

/-- `K8sAgent.check_command_safety` (`k8s-agent.py` lines 457-482). -/
def K8sAgent.check_command_safety (command : String) : Bool × String :=
  gateCheck ["kubectl", "helm", "kustomize"] command

/-- `TerraformAgent.check_command_safety` (`terraform-agent.py` lines 421-446). -/
def TerraformAgent.check_command_safety (command : String) : Bool × String :=
  gateCheck ["terraform"] command

/-- The `dangerous_keywords` list of `infra-agent.py` (lines 452-456; `mkfs`
appears twice in the source and is kept twice). -/
def infraDangerousKeywords : List String :=
  ["rm -rf", "rmdir", "mkfs", "dd if=", "dd of=",
   "> /dev", "format", "fdisk", "mkfs", "wget", "curl -o",
   "sudo", "su -", "chmod 777", "> /etc/passwd"]

/-- `InfraAgent.check_command_safety` (`infra-agent.py` lines 450-462):
denylist scan only, no allow-list. -/
def InfraAgent.check_command_safety (command : String) : Bool × String :=
  match infraDangerousKeywords.find? (fun k => containsSub command k) with
  | some k => (false, "Command contains potentially dangerous operation: " ++ k)
  | none => (true, "Command appears safe")

example : (DockerAgent.check_command_safety "docker build -t x .").fst = true := by decide
example : (DockerAgent.check_command_safety "rm -rf /").fst = false := by decide
example : (DockerAgent.check_command_safety "ls").fst = false := by decide
example : (InfraAgent.check_command_safety "ls").fst = true := by decide

/-! # File persistence (`save_files`)

The docker, ansible, k8s and terraform agents share a `save_files` with a
path-traversal check; the code and infra agents' `save_files` have none.
Filesystem effects are modelled as logs: the returned `saved_files` list, the
`(path, content)` writes, the `os.makedirs` targets and (for the infra agent)
the `os.chmod 0o755` targets. -/

/-- The effect log of one `save_files` call. -/
structure SaveResult where
  saved : List String
  writes : List (String × String)
  mkdirs : List String
  chmods : List String
deriving DecidableEq

/-- The path-traversal rejection test of the docker-style `save_files`
(`docker-agent.py` lines 512-513): reject when the normalized filename is
absolute or contains `".."` as a substring. -/
def traversalRejected (filename : String) : Bool :=
  pyStartsWith (normpath filename) "/" || containsSub (normpath filename) ".."

/-- The docker-style `save_files` loop (`docker-agent.py` lines 501-530,
identical in ansible/k8s/terraform), with the working directory for
`os.path.abspath` passed explicitly. -/
def dockerStyleSave (cwd : String) : List Artifact → String → SaveResult
  | [], _ => ⟨[], [], [], []⟩
  | a :: rest, base =>
    if traversalRejected a.filename = true then dockerStyleSave cwd rest base
    else
      let p := pjoin base (normpath a.filename)
      let r := dockerStyleSave cwd rest base
      { saved := p :: r.saved, writes := (p, a.content) :: r.writes,
        mkdirs := dirname (abspath cwd p) :: r.mkdirs, chmods := r.chmods }

/-- `DockerAgent.save_files` (`docker-agent.py` lines 501-530). -/
def DockerAgent.save_files : String → List Artifact → String → SaveResult := dockerStyleSave

/-- `AnsibleAgent.save_files` (`ansible-agent.py` lines 399-428). -/
def AnsibleAgent.save_files : String → List Artifact → String → SaveResult := dockerStyleSave

/-- `K8sAgent.save_files` (`k8s-agent.py` lines 426-455). -/
def K8sAgent.save_files : String → List Artifact → String → SaveResult := dockerStyleSave

/-- `TerraformAgent.save_files` (`terraform-agent.py` lines 390-419). -/
def TerraformAgent.save_files : String → List Artifact → String → SaveResult := dockerStyleSave

/-- The per-artifact loop of `CodeAgent.save_files` (`code-agent.py` lines
258-274): join, make the parent directory, write — no path check. -/
def codeSaveGo : List Artifact → String → SaveResult
  | [], _ => ⟨[], [], [], []⟩
  | a :: rest, base =>
    let p := pjoin base a.filename
    let r := codeSaveGo rest base
    { saved := p :: r.saved, writes := (p, a.content) :: r.writes,
      mkdirs := dirname p :: r.mkdirs, chmods := r.chmods }

/-- `CodeAgent.save_files` (`code-agent.py` lines 249-276) with the base
directory passed by the caller; the timestamp-derived default directory
depends on the clock and is outside the model.  The leading `mkdirs` entry is
the initial `os.makedirs(base_dir, exist_ok=True)`. -/
def CodeAgent.save_files (files : List Artifact) (base : String) : SaveResult :=
  let r := codeSaveGo files base
  { r with mkdirs := base :: r.mkdirs }

/-- The per-artifact loop of `InfraAgent.save_files` (`infra-agent.py` lines
427-446): join, make the parent directory, write, chmod shell scripts — no
path check. -/
def infraSaveGo : List Artifact → String → SaveResult
  | [], _ => ⟨[], [], [], []⟩
  | a :: rest, base =>
    let p := pjoin base a.filename
    let r := infraSaveGo rest base
    { saved := p :: r.saved, writes := (p, a.content) :: r.writes,
      mkdirs := dirname p :: r.mkdirs,
      chmods := if pyEndsWith a.filename ".sh" = true then p :: r.chmods else r.chmods }

/-- `InfraAgent.save_files` (`infra-agent.py` lines 417-448) with the base
directory passed by the caller; the timestamp-derived default directory
depends on the clock and is outside the model. -/
def InfraAgent.save_files (files : List Artifact) (base : String) : SaveResult :=
  let r := infraSaveGo files base
  { r with mkdirs := base :: r.mkdirs }

example :
    (DockerAgent.save_files "/cwd" [⟨"../../etc/passwd", "x"⟩] "out").writes = [] := by decide
example :
    (DockerAgent.save_files "/cwd" [⟨"sub/dir/file.txt", "x"⟩] "out").saved =
      ["out/sub/dir/file.txt"] := by decide
example :
    (CodeAgent.save_files [⟨"../../etc/passwd", "x"⟩] "output").writes =
      [("output/../../etc/passwd", "x")] := by decide
example :
    (InfraAgent.save_files [⟨"/etc/passwd", "x"⟩] "output").writes =
      [("/etc/passwd", "x")] := by decide

/-! # Helper lemmas about the extractor loops -/

/-- Docker-style loop: while a file is open and outside a fence, lines that
are neither markers nor fence delimiters are accumulated verbatim. -/
lemma dockerFoldl_plain (body : List String) (files : List Artifact) (f : String)
    (hf : f ≠ "") :
    ∀ (content : List String),
      (∀ l ∈ body, isFileMarker l = false ∧ pyStartsWith (pyStrip l) tripleTick = false) →
      List.foldl dockerStyleStep ⟨files, f, content, false⟩ body =
        ⟨files, f, content ++ body, false⟩ := by
  induction body with
  | nil => intro content _; simp
  | cons l ls ih =>
    intro content hb
    obtain ⟨h1, h2⟩ := hb l (by simp)
    have hstep : dockerStyleStep ⟨files, f, content, false⟩ l =
        ⟨files, f, content ++ [l], false⟩ := by
      simp [dockerStyleStep, h1, h2, hf]
    rw [List.foldl_cons, hstep,
        ih (content ++ [l]) (fun x hx => hb x (List.mem_cons_of_mem _ hx))]
    simp

/-- Docker-style single step only ever appends to the emitted-file list. -/
lemma dockerStep_files (s : DState) (l : String) :
    ∃ t, (dockerStyleStep s l).files = s.files ++ t := by
  unfold dockerStyleStep
  repeat' split
  all_goals first
    | exact ⟨[⟨s.current_file, pyJoinLines s.current_content⟩], rfl⟩
    | exact ⟨[], by simp⟩

/-- Docker-style loop only ever appends to the emitted-file list. -/
lemma dockerFoldl_files (ls : List String) :
    ∀ (s : DState), ∃ t, (List.foldl dockerStyleStep s ls).files = s.files ++ t := by
  induction ls with
  | nil => intro s; exact ⟨[], by simp⟩
  | cons l ls ih =>
    intro s
    obtain ⟨t1, h1⟩ := dockerStep_files s l
    obtain ⟨t2, h2⟩ := ih (dockerStyleStep s l)
    exact ⟨t1 ++ t2, by rw [List.foldl_cons, h2, h1, List.append_assoc]⟩

/-- Docker-style loop: with no marker line in the input, no file is ever
opened and nothing is emitted. -/
lemma dockerFoldl_noMarker (ls : List String) :
    ∀ (b : Bool), (∀ l ∈ ls, isFileMarker l = false) →
      ∃ b2, List.foldl dockerStyleStep ⟨[], "", [], b⟩ ls = ⟨[], "", [], b2⟩ := by
  induction ls with
  | nil => intro b _; exact ⟨b, rfl⟩
  | cons l ls ih =>
    intro b hb
    have h1 := hb l (by simp)
    have hstep : ∃ b1, dockerStyleStep ⟨[], "", [], b⟩ l = ⟨[], "", [], b1⟩ := by
      unfold dockerStyleStep
      simp only [h1, Bool.false_eq_true, if_false, ne_eq, not_true_eq_false]
      split
      · exact ⟨true, rfl⟩
      · split
        · exact ⟨false, rfl⟩
        · simp
    obtain ⟨b1, hs⟩ := hstep
    rw [List.foldl_cons, hs]
    exact ih b1 (fun x hx => hb x (List.mem_cons_of_mem _ hx))

/-- Marked-fence loop: while a file is open and inside a fence, lines that
are neither markers nor fence delimiters are accumulated verbatim. -/
lemma markedFoldl_inBlock (table : List (String × String)) (baseName : String)
    (body : List String) (files : List Artifact) (f : String) (hf : f ≠ "") :
    ∀ (content : List String),
      (∀ l ∈ body, isFileMarker l = false ∧ pyStartsWith (pyStrip l) tripleTick = false) →
      List.foldl (markedFenceStep table baseName) ⟨files, f, content, true⟩ body =
        ⟨files, f, content ++ body, true⟩ := by
  induction body with
  | nil => intro content _; simp
  | cons l ls ih =>
    intro content hb
    obtain ⟨h1, h2⟩ := hb l (by simp)
    have hstep : markedFenceStep table baseName ⟨files, f, content, true⟩ l =
        ⟨files, f, content ++ [l], true⟩ := by
      simp [markedFenceStep, h1, h2, hf]
    rw [List.foldl_cons, hstep,
        ih (content ++ [l]) (fun x hx => hb x (List.mem_cons_of_mem _ hx))]
    simp

/-- Marked-fence loop: on input with neither markers nor fence delimiters the
state never changes at all. -/
lemma markedFoldl_inert (table : List (String × String)) (baseName : String)
    (ls : List String)
    (hb : ∀ l ∈ ls, isFileMarker l = false ∧ pyStartsWith (pyStrip l) tripleTick = false) :
    List.foldl (markedFenceStep table baseName) initState ls = initState := by
  induction ls with
  | nil => simp
  | cons l ls ih =>
    obtain ⟨h1, h2⟩ := hb l (by simp)
    have hstep : markedFenceStep table baseName initState l = initState := by
      simp [markedFenceStep, initState, h1, h2]
    rw [List.foldl_cons, hstep]
    exact ih (fun x hx => hb x (List.mem_cons_of_mem _ hx))

/-! # Helper lemmas about the save loops -/

/-- Concatenation of two save-effect logs. -/
def mergeSave (r1 r2 : SaveResult) : SaveResult :=
  ⟨r1.saved ++ r2.saved, r1.writes ++ r2.writes,
   r1.mkdirs ++ r2.mkdirs, r1.chmods ++ r2.chmods⟩

/-- Unfolding equation of the docker-style save loop on a nonempty batch. -/
lemma dockerSave_cons (cwd base : String) (a : Artifact) (rest : List Artifact) :
    dockerStyleSave cwd (a :: rest) base =
      if traversalRejected a.filename = true then dockerStyleSave cwd rest base
      else
        { saved := pjoin base (normpath a.filename) :: (dockerStyleSave cwd rest base).saved,
          writes := (pjoin base (normpath a.filename), a.content) ::
                      (dockerStyleSave cwd rest base).writes,
          mkdirs := dirname (abspath cwd (pjoin base (normpath a.filename))) ::
                      (dockerStyleSave cwd rest base).mkdirs,
          chmods := (dockerStyleSave cwd rest base).chmods } := rfl

/-- The docker-style save loop distributes over batch concatenation. -/
lemma dockerSave_append (cwd base : String) :
    ∀ (l1 l2 : List Artifact),
      dockerStyleSave cwd (l1 ++ l2) base =
        mergeSave (dockerStyleSave cwd l1 base) (dockerStyleSave cwd l2 base) := by
  intro l1 l2
  induction l1 with
  | nil =>
    show dockerStyleSave cwd l2 base = mergeSave ⟨[], [], [], []⟩ (dockerStyleSave cwd l2 base)
    simp [mergeSave]
  | cons a rest ih =>
    by_cases h : traversalRejected a.filename = true
    · simp only [List.cons_append, dockerSave_cons, if_pos h]
      exact ih
    · simp only [List.cons_append, dockerSave_cons, if_neg h, ih, mergeSave]

/-- A rejected artifact contributes nothing to the save-effect log. -/
lemma dockerSave_rejected (cwd base : String) (a : Artifact)
    (ha : traversalRejected a.filename = true) (rest : List Artifact) :
    dockerStyleSave cwd (a :: rest) base = dockerStyleSave cwd rest base := by
  rw [dockerSave_cons, if_pos ha]

/-- Every artifact that passes the path check is written and its path is
reported in the returned list. -/
lemma dockerSave_mem (cwd base : String) :
    ∀ (batch : List Artifact) (b : Artifact), b ∈ batch →
      traversalRejected b.filename = false →
      pjoin base (normpath b.filename) ∈ (dockerStyleSave cwd batch base).saved ∧
      (pjoin base (normpath b.filename), b.content) ∈ (dockerStyleSave cwd batch base).writes := by
  intro batch
  induction batch with
  | nil => intro b hb; exact absurd hb (List.not_mem_nil b)
  | cons a rest ih =>
    intro b hb hok
    rcases List.mem_cons.mp hb with hba | hbr
    · subst hba
      rw [dockerSave_cons, if_neg (by simp [hok])]
      exact ⟨List.mem_cons_self _ _, List.mem_cons_self _ _⟩
    · have hrec := ih b hbr hok
      by_cases h : traversalRejected a.filename = true
      · rw [dockerSave_cons, if_pos h]
        exact hrec
      · rw [dockerSave_cons, if_neg h]
        exact ⟨List.mem_cons_of_mem _ hrec.1, List.mem_cons_of_mem _ hrec.2⟩

/-! # Claim theorems -/

/-- Claim C1, counterexample: the infra agent owns a safety gate
(`check_command_safety`) yet does not reject the command `"ls"`, because its
gate has no allow-list check at all — so it is not the case that every agent's
gate returns a REJECTED verdict for `"ls"`. -/
theorem infra_gate_does_not_reject_ls :
    ¬ ((InfraAgent.check_command_safety "ls").fst = false) := by decide

/-- Claim C1, amended: the command `"ls"` is REJECTED by the four gates that
own an allow-list (docker, ansible, k8s, terraform), because `"ls"` is in none
of their allow-lists; the infra agent's gate consists of only a denylist scan
and returns an ALLOWED verdict for `"ls"`. -/
theorem ls_rejected_only_by_allowlist_gates :
    (DockerAgent.check_command_safety "ls").fst = false ∧
    (AnsibleAgent.check_command_safety "ls").fst = false ∧
    (K8sAgent.check_command_safety "ls").fst = false ∧
    (TerraformAgent.check_command_safety "ls").fst = false ∧
    InfraAgent.check_command_safety "ls" = (true, "Command appears safe") := by decide

/-- Claim C2, counterexample: the code agent's and infra agent's `save_files`
perform no path check at all, so the candidate paths `"../../etc/passwd"` and
`"/etc/passwd"` are not rejected there — the file is written. -/
theorem unchecked_save_writes_traversal_paths :
    (CodeAgent.save_files [⟨"../../etc/passwd", "pwned"⟩] "output").writes =
      [("output/../../etc/passwd", "pwned")] ∧
    (InfraAgent.save_files [⟨"/etc/passwd", "pwned"⟩] "output").writes =
      [("/etc/passwd", "pwned")] := by decide

/-- Claim C2, amended: in the docker, ansible, k8s and terraform agents'
`save_files`, the paths `"../../etc/passwd"` and `"/etc/passwd"` are always
rejected (nothing saved, written or created) and `"sub/dir/file.txt"` is
always accepted, written under the base directory with its parent directory
created; the code and infra agents' `save_files` have no path check and write
even the traversal paths. -/
theorem path_safety_split_between_agents (cwd base c : String) :
    DockerAgent.save_files cwd [⟨"../../etc/passwd", c⟩, ⟨"/etc/passwd", c⟩] base =
      ⟨[], [], [], []⟩ ∧
    (DockerAgent.save_files cwd [⟨"sub/dir/file.txt", c⟩] base).saved =
      [pjoin base "sub/dir/file.txt"] ∧
    (DockerAgent.save_files cwd [⟨"sub/dir/file.txt", c⟩] base).writes =
      [(pjoin base "sub/dir/file.txt", c)] ∧
    (DockerAgent.save_files cwd [⟨"sub/dir/file.txt", c⟩] base).mkdirs =
      [dirname (abspath cwd (pjoin base "sub/dir/file.txt"))] ∧
    (CodeAgent.save_files [⟨"../../etc/passwd", c⟩] base).writes =
      [(pjoin base "../../etc/passwd", c)] ∧
    (InfraAgent.save_files [⟨"/etc/passwd", c⟩] base).writes = [("/etc/passwd", c)] := by
  have hn : normpath "sub/dir/file.txt" = "sub/dir/file.txt" := by decide
  have h1 : traversalRejected "../../etc/passwd" = true := by decide
  have h2 : traversalRejected "/etc/passwd" = true := by decide
  have h3 : ¬ traversalRejected "sub/dir/file.txt" = true := by decide
  refine ⟨?_, ?_, ?_, ?_, rfl, ?_⟩
  · show dockerStyleSave cwd _ base = _
    rw [dockerSave_rejected _ _ _ h1, dockerSave_rejected _ _ _ h2]
    rfl
  · show (dockerStyleSave cwd _ base).saved = _
    rw [dockerSave_cons, if_neg h3, hn]
    rfl
  · show (dockerStyleSave cwd _ base).writes = _
    rw [dockerSave_cons, if_neg h3, hn]
    rfl
  · show (dockerStyleSave cwd _ base).mkdirs = _
    rw [dockerSave_cons, if_neg h3, hn]
    rfl
  · show (InfraAgent.save_files _ base).writes = _
    have hj : pjoin base "/etc/passwd" = "/etc/passwd" := by
      unfold pjoin
      rw [if_pos (by decide)]
    simp [InfraAgent.save_files, infraSaveGo, hj]

/-- Claim C6, counterexample: the marker prefix is not matched
case-insensitively — a line beginning `"## FILE:"` is not treated as a file
marker, so no artifact is started for it. -/
theorem marker_not_case_insensitive :
    DockerAgent.extract_files "## FILE: a.txt\nhello" = [] ∧
    isFileMarker "## FILE: a.txt" = false := by decide

/-- Claim C6, amended: exactly the two capitalizations `"## file:"` and
`"## File:"` are recognized as marker prefixes; any other capitalization,
e.g. `"## FILE:"`, is not a marker and starts no artifact. -/
theorem marker_two_exact_capitalizations :
    DockerAgent.extract_files "## file: a.txt\nhello" = [⟨"a.txt", "hello"⟩] ∧
    DockerAgent.extract_files "## File: a.txt\nhello" = [⟨"a.txt", "hello"⟩] ∧
    DockerAgent.extract_files "## FILE: a.txt\nhello" = [] ∧
    isFileMarker "## file: a.txt" = true ∧
    isFileMarker "## File: a.txt" = true ∧
    isFileMarker "## FILE: a.txt" = false := by decide

/-- Claim C8: the Extractor is a deterministic pure function of its input —
equal input strings yield equal artifact lists, for every agent's
`extract_files`. -/
theorem extractor_deterministic (r1 r2 : String) (h : r1 = r2) :
    DockerAgent.extract_files r1 = DockerAgent.extract_files r2 ∧
    AnsibleAgent.extract_files r1 = AnsibleAgent.extract_files r2 ∧
    K8sAgent.extract_files r1 = K8sAgent.extract_files r2 ∧
    TerraformAgent.extract_files r1 = TerraformAgent.extract_files r2 ∧
    CodeAgent.extract_files r1 = CodeAgent.extract_files r2 ∧
    InfraAgent.extract_files r1 = InfraAgent.extract_files r2 := by
  rw [h]
  exact ⟨rfl, rfl, rfl, rfl, rfl, rfl⟩

/-- Witness for C8 at a concrete input. -/
theorem extractor_deterministic_witness :
    ("## file: a.txt\nhello" : String) = "## file: a.txt\nhello" ∧
    DockerAgent.extract_files "## file: a.txt\nhello" =
      DockerAgent.extract_files "## file: a.txt\nhello" :=
  ⟨rfl, (extractor_deterministic "## file: a.txt\nhello" "## file: a.txt\nhello" rfl).1⟩

/-- Claim C9: the denylist substring scan runs before the allow-list check,
so `"docker build -t subnet ."` — whose first whitespace token `"docker"` is
in the docker agent's allow-list — is REJECTED because the denylist entry
`"su"` occurs inside the unrelated word `"subnet"`; likewise for the
terraform agent. -/
theorem denylist_substring_overrides_allowlist :
    DockerAgent.check_command_safety "docker build -t subnet ." =
      (false, "Command contains potentially dangerous pattern: su") ∧
    (pySplitWs (pyStrip "docker build -t subnet .")).head? = some "docker" ∧
    ["docker", "docker-compose"].contains "docker" = true ∧
    TerraformAgent.check_command_safety "terraform plan subnet" =
      (false, "Command contains potentially dangerous pattern: su") ∧
    (pySplitWs (pyStrip "terraform plan subnet")).head? = some "terraform" ∧
    ["terraform"].contains "terraform" = true := by decide

/-- Claim C10: `save_files` rejects on the substring `".."` anywhere in the
normalized filename, not only on `".."` path segments: `"notes..md"` is a
single plain path segment (no `".."` segment, left unchanged by `normpath`)
yet the artifact is skipped — nothing is saved or written — by the docker and
k8s agents' `save_files`. -/
theorem dotdot_substring_rejects_inside_segment (cwd base c : String) :
    DockerAgent.save_files cwd [⟨"notes..md", c⟩] base = ⟨[], [], [], []⟩ ∧
    K8sAgent.save_files cwd [⟨"notes..md", c⟩] base = ⟨[], [], [], []⟩ ∧
    normpath "notes..md" = "notes..md" ∧
    (pySplitChar "notes..md" '/').contains ".." = false := by
  have h1 : traversalRejected "notes..md" = true := by decide
  refine ⟨?_, ?_, by decide, by decide⟩
  · show dockerStyleSave cwd _ base = _
    rw [dockerSave_rejected _ _ _ h1]
    rfl
  · show dockerStyleSave cwd _ base = _
    rw [dockerSave_rejected _ _ _ h1]
    rfl

/-- Claim C3, counterexample: in the infra agent's extractor a `## file:`
marker not followed by a fence accumulates no content; no artifact for the
marker is emitted and the README fallback fires instead, so the extracted
artifact's content is not the lines following the marker. -/
theorem infra_marker_without_fence_counterexample :
    InfraAgent.extract_files "## file: a.txt\nhello" =
      [⟨"README.md", "## file: a.txt\nhello"⟩] ∧
    ¬ (InfraAgent.extract_files "## file: a.txt\nhello" = [⟨"a.txt", "hello"⟩]) := by decide

/-- Head of the docker-style final flush, given the first emitted artifact. -/
lemma dockerFinish_head (s : DState) (a : Artifact) (t : List Artifact)
    (h : s.files = a :: t) : (dockerStyleFinish s).head? = some a := by
  unfold dockerStyleFinish
  split
  · rw [h, List.cons_append]
    rfl
  · rw [h]
    rfl

/-- Claim C3, amended: in the docker-style extractors (docker, ansible, k8s,
terraform agents), for a marker line with a nonempty filename followed by no
fence delimiter, the artifact's content equals all lines following the marker
up to end-of-input, and likewise up to the next marker when one follows; in
the infra and code agents' extractors such a marker accumulates nothing
(counterexample above). -/
theorem marker_without_fence_collects_following_lines
    (r m f : String) (body : List String)
    (hsplit : pySplitLines r = m :: body)
    (hm : isFileMarker m = true) (hp : markerPath m = f) (hf : f ≠ "")
    (hb : ∀ l ∈ body, isFileMarker l = false ∧ pyStartsWith (pyStrip l) tripleTick = false) :
    DockerAgent.extract_files r = [⟨f, pyJoinLines body⟩] ∧
    ∀ (r2 m2 : String) (rest : List String),
      pySplitLines r2 = m :: (body ++ m2 :: rest) → isFileMarker m2 = true →
      (AnsibleAgent.extract_files r2).head? = some ⟨f, pyJoinLines body⟩ := by
  have hstep : dockerStyleStep initState m = ⟨[], f, [], false⟩ := by
    unfold dockerStyleStep
    rw [if_pos hm, if_neg (by simp [initState])]
    simp [initState, hp]
  constructor
  · show dockerStyleExtract r = _
    unfold dockerStyleExtract dockerStyleExtractLines
    rw [hsplit, List.foldl_cons, hstep, dockerFoldl_plain body [] f hf [] hb]
    simp [dockerStyleFinish, hf]
  · intro r2 m2 rest hsplit2 hm2
    show (dockerStyleExtract r2).head? = _
    unfold dockerStyleExtract dockerStyleExtractLines
    rw [hsplit2, List.foldl_cons, hstep, List.foldl_append,
        dockerFoldl_plain body [] f hf [] hb, List.foldl_cons]
    have hstep2 : dockerStyleStep ⟨[], f, [] ++ body, false⟩ m2 =
        ⟨[⟨f, pyJoinLines ([] ++ body)⟩], markerPath m2, [], false⟩ := by
      unfold dockerStyleStep
      rw [if_pos hm2, if_pos hf]
      rfl
    rw [hstep2]
    obtain ⟨t, ht⟩ :=
      dockerFoldl_files rest ⟨[⟨f, pyJoinLines ([] ++ body)⟩], markerPath m2, [], false⟩
    have := dockerFinish_head _ ⟨f, pyJoinLines ([] ++ body)⟩ t (by simpa using ht)
    simpa using this

/-- Witness for C3 at concrete inputs: a marker with no fence before
end-of-input, and the same marker and body followed by a second marker. -/
theorem marker_without_fence_witness :
    DockerAgent.extract_files "## file: a.txt\nhello" = [⟨"a.txt", "hello"⟩] ∧
    (AnsibleAgent.extract_files "## file: a.txt\nhello\n## file: c.txt\nbye").head? =
      some ⟨"a.txt", "hello"⟩ := by
  have h := marker_without_fence_collects_following_lines
    "## file: a.txt\nhello" "## file: a.txt" "a.txt" ["hello"]
    (by decide) (by decide) (by decide) (by decide) (by decide)
  constructor
  · exact h.1.trans (by decide)
  · exact (h.2 "## file: a.txt\nhello\n## file: c.txt\nbye" "## file: c.txt" ["bye"]
      (by decide) (by decide)).trans (by decide)

/-- Claim C4, counterexample: the ansible agent's extractor derives no default
filename at all — a response that is one fenced code block with a language tag
and no `## file:` marker yields zero artifacts, not one. -/
theorem ansible_fenced_without_marker_counterexample :
    AnsibleAgent.extract_files "```python\nprint(1)\n```" = [] ∧
    ¬ ((AnsibleAgent.extract_files "```python\nprint(1)\n```").length = 1) := by decide

/-- A string with a nonempty prefix appended to anything is nonempty. -/
lemma string_append_ne_empty (s t : String) (h : s.data ≠ []) : s ++ t ≠ "" := by
  cases s with
  | mk a =>
    cases t with
    | mk b =>
      intro he
      have h2 : a ++ b = ([] : List Char) := congrArg String.data he
      rcases List.append_eq_nil.mp h2 with ⟨ha, rfl⟩
      exact h ha

/-- Claim C4, amended: in the code agent's extractor (and likewise the infra
agent's), a response that is a single fenced block with a nonempty language
tag and no marker yields exactly one artifact whose default filename is the
fixed basename plus the extension-table entry for the tag (unknown tags map
to txt); the docker-style extractors (docker, ansible, k8s, terraform) derive
no default name and yield zero artifacts on any marker-free input. -/
theorem fenced_code_without_marker (r openL lang closeL : String) (body : List String)
    (hsplit : pySplitLines r = openL :: (body ++ [closeL]))
    (ho1 : isFileMarker openL = false)
    (ho2 : pyStartsWith (pyStrip openL) tripleTick = true)
    (hlang : pyStrip (pyDropChars 3 (pyStrip openL)) = lang) (hlne : lang ≠ "")
    (hb : ∀ l ∈ body, isFileMarker l = false ∧ pyStartsWith (pyStrip l) tripleTick = false)
    (hc1 : isFileMarker closeL = false)
    (hc2 : pyStartsWith (pyStrip closeL) tripleTick = true) :
    CodeAgent.extract_files r =
      [⟨"generated_code." ++ lookupD codeExtensions (pyLower lang) "txt", pyJoinLines body⟩] ∧
    ∀ (r2 : String), (∀ l ∈ pySplitLines r2, isFileMarker l = false) →
      AnsibleAgent.extract_files r2 = [] := by
  constructor
  · show markedFenceExtractLines codeExtensions "generated_code" (pySplitLines r) = _
    unfold markedFenceExtractLines
    rw [hsplit, List.foldl_cons]
    have hfne : ("generated_code." ++ lookupD codeExtensions (pyLower lang) "txt") ≠ "" :=
      string_append_ne_empty _ _ (by decide)
    have hstep1 : markedFenceStep codeExtensions "generated_code" initState openL =
        ⟨[], "generated_code." ++ lookupD codeExtensions (pyLower lang) "txt", [], true⟩ := by
      simp [markedFenceStep, initState, ho1, ho2, hlang, hlne]
    rw [hstep1, List.foldl_append,
        markedFoldl_inBlock codeExtensions "generated_code" body [] _ hfne [] hb,
        List.foldl_cons]
    have hstep2 : markedFenceStep codeExtensions "generated_code"
        ⟨[], "generated_code." ++ lookupD codeExtensions (pyLower lang) "txt",
          [] ++ body, true⟩ closeL =
        ⟨[⟨"generated_code." ++ lookupD codeExtensions (pyLower lang) "txt",
            pyJoinLines ([] ++ body)⟩], "", [], false⟩ := by
      simp [markedFenceStep, hc1, hc2, hfne]
    rw [hstep2]
    simp [markedFenceFinish]
  · intro r2 h2
    show dockerStyleExtract r2 = []
    unfold dockerStyleExtract dockerStyleExtractLines
    obtain ⟨b2, hb2⟩ := dockerFoldl_noMarker (pySplitLines r2) false h2
    show dockerStyleFinish (List.foldl dockerStyleStep ⟨[], "", [], false⟩ (pySplitLines r2)) = []
    rw [hb2]
    simp [dockerStyleFinish]

/-- Witness for C4 at a concrete input: one python-tagged fence, no marker. -/
theorem fenced_code_without_marker_witness :
    CodeAgent.extract_files "```python\nprint(1)\n```" =
      [⟨"generated_code.py", "print(1)"⟩] ∧
    AnsibleAgent.extract_files "```js\nx\n```" = [] := by
  have h := fenced_code_without_marker "```python\nprint(1)\n```" "```python" "python" "```"
    ["print(1)"] (by decide) (by decide) (by decide) (by decide) (by decide) (by decide)
    (by decide) (by decide)
  exact ⟨h.1.trans (by decide), h.2 "```js\nx\n```" (by decide)⟩

/-- Claim C5, counterexample: on a response with no markers and no fences the
infra agent's `extract_files` itself returns one artifact — the README
fallback is performed inside the Extractor, not by the caller. -/
theorem infra_extractor_runs_fallback_itself :
    InfraAgent.extract_files "just some prose" = [⟨"README.md", "just some prose"⟩] ∧
    ¬ ((InfraAgent.extract_files "just some prose").length = 0) := by decide

/-- Claim C5, amended: for a response with no markers and no fences, the code
agent's and docker-style extractors themselves return zero artifacts and the
code agent's caller (`run`) produces exactly one raw-text artifact; the infra
agent's `extract_files` however performs the fallback itself and returns one
README artifact holding the whole response. -/
theorem no_marker_no_fence_extraction (r : String)
    (h : ∀ l ∈ pySplitLines r,
          isFileMarker l = false ∧ pyStartsWith (pyStrip l) tripleTick = false) :
    CodeAgent.extract_files r = [] ∧
    DockerAgent.extract_files r = [] ∧
    infraExtractCore r = [] ∧
    InfraAgent.extract_files r = [⟨"README.md", r⟩] ∧
    CodeAgent.run_files r = [⟨"generated_code.txt", r⟩] := by
  have hcode : CodeAgent.extract_files r = [] := by
    show markedFenceExtractLines codeExtensions "generated_code" (pySplitLines r) = []
    unfold markedFenceExtractLines
    rw [markedFoldl_inert _ _ _ h]
    simp [markedFenceFinish, initState]
  have hinfra : infraExtractCore r = [] := by
    show markedFenceExtractLines infraExtensions "infra" (pySplitLines r) = []
    unfold markedFenceExtractLines
    rw [markedFoldl_inert _ _ _ h]
    simp [markedFenceFinish, initState]
  have hdocker : DockerAgent.extract_files r = [] := by
    obtain ⟨b2, hb2⟩ := dockerFoldl_noMarker (pySplitLines r) false (fun l hl => (h l hl).1)
    show dockerStyleFinish (List.foldl dockerStyleStep ⟨[], "", [], false⟩ (pySplitLines r)) = []
    rw [hb2]
    simp [dockerStyleFinish]
  refine ⟨hcode, hdocker, hinfra, ?_, ?_⟩
  · unfold InfraAgent.extract_files
    simp [hinfra]
  · unfold CodeAgent.run_files
    simp [hcode]

/-- Witness for C5 at a concrete marker-free, fence-free response. -/
theorem no_marker_no_fence_extraction_witness :
    CodeAgent.extract_files "plain prose\nsecond line" = [] ∧
    DockerAgent.extract_files "plain prose\nsecond line" = [] ∧
    infraExtractCore "plain prose\nsecond line" = [] ∧
    InfraAgent.extract_files "plain prose\nsecond line" =
      [⟨"README.md", "plain prose\nsecond line"⟩] ∧
    CodeAgent.run_files "plain prose\nsecond line" =
      [⟨"generated_code.txt", "plain prose\nsecond line"⟩] :=
  no_marker_no_fence_extraction "plain prose\nsecond line" (by decide)

/-- Claim C7: in the docker-style `save_files`, one artifact rejected by the
path-traversal check never aborts the batch — the effect log of the whole
batch is the concatenation of the logs of the artifacts before and after the
rejected one, and every artifact that passes the check is written and its
path reported in the returned list. -/
theorem rejected_artifact_never_aborts_batch (cwd base : String)
    (l1 l2 : List Artifact) (a : Artifact)
    (ha : traversalRejected a.filename = true) :
    DockerAgent.save_files cwd (l1 ++ a :: l2) base =
      mergeSave (DockerAgent.save_files cwd l1 base) (DockerAgent.save_files cwd l2 base) ∧
    ∀ b ∈ l1 ++ a :: l2, traversalRejected b.filename = false →
      pjoin base (normpath b.filename) ∈
        (DockerAgent.save_files cwd (l1 ++ a :: l2) base).saved ∧
      (pjoin base (normpath b.filename), b.content) ∈
        (DockerAgent.save_files cwd (l1 ++ a :: l2) base).writes := by
  constructor
  · show dockerStyleSave cwd (l1 ++ a :: l2) base =
      mergeSave (dockerStyleSave cwd l1 base) (dockerStyleSave cwd l2 base)
    rw [dockerSave_append, dockerSave_rejected _ _ _ ha]
  · intro b hb hok
    exact dockerSave_mem cwd base _ b hb hok

/-- Witness for C7 at a concrete batch with a traversal artifact in the
middle. -/
theorem rejected_artifact_never_aborts_batch_witness :
    DockerAgent.save_files "/c" [⟨"a.txt", "1"⟩, ⟨"../../x", "2"⟩, ⟨"b.txt", "3"⟩] "out" =
      mergeSave (DockerAgent.save_files "/c" [⟨"a.txt", "1"⟩] "out")
        (DockerAgent.save_files "/c" [⟨"b.txt", "3"⟩] "out") ∧
    "out/b.txt" ∈
      (DockerAgent.save_files "/c" [⟨"a.txt", "1"⟩, ⟨"../../x", "2"⟩, ⟨"b.txt", "3"⟩] "out").saved := by
  have h := rejected_artifact_never_aborts_batch "/c" "out" [⟨"a.txt", "1"⟩]
    [⟨"b.txt", "3"⟩] ⟨"../../x", "2"⟩ (by decide)
  refine ⟨h.1, ?_⟩
  have hm := (h.2 ⟨"b.txt", "3"⟩ (by decide) (by decide)).1
  have he : pjoin "out" (normpath "b.txt") = "out/b.txt" := by decide
  rw [he] at hm
  exact hm
